import Mathlib

set_option maxHeartbeats 1000000
set_option linter.unusedVariables false

/-!
Shallow embedding of the swush-manager core services:
BrazeTriggerService (trigger evaluation and campaign dispatch),
SwushClient (partner API retry policy) and SyncService
(orchestration, user-page sync, element sync, due-for-sync scheduling).

Timestamps are modelled as integer milliseconds since the epoch.
Network and store effects are modelled by passing the outcome of each
external call as an explicit argument and by returning the rows the
code would write.
-/

/-- JS coercion: the expression (x || 1) on a number-or-null field; null,
undefined and 0 are falsy. -/
def jsOrIntOne : Option Int → Int
  | none => 1
  | some n => if n = 0 then 1 else n

/-- JS coercion: the expression (s || d) on a string; the empty string is falsy. -/
def jsOrStr (s d : String) : String :=
  if s = "" then d else s

/-- JS coercion: the expression (s || d) on a string-or-null value. -/
def jsOrOptStr : Option String → String → String
  | none, d => d
  | some s, d => if s = "" then d else s

/-- JS template interpolation of a number-or-null value. -/
def jsShowOptInt : Option Int → String
  | none => "null"
  | some n => toString n

/-- JS template interpolation of a string-or-null value. -/
def jsShowOptStr : Option String → String
  | none => "null"
  | some s => s

/-- JS Math.round applied to the exact rational a / b with b > 0
(round half toward positive infinity). -/
def jsRoundDiv (a b : Int) : Int := Int.fdiv (2 * a + b) (2 * b)

def msPerHour : Int := 3600000

def msPerMinute : Int := 60000

/-- date-fns differenceInHours: full hours between two instants, rounded
toward zero. -/
def differenceInHours (later earlier : Int) : Int :=
  Int.tdiv (later - earlier) msPerHour

/-- Row of the games table (src/types Game), fields used by the core. -/
structure Game where
  id : String
  game_key : String
  name : String
  subsite_key : String
  is_active : Bool
  current_round : Option Int
  total_rounds : Int
  round_state : Option String
  next_trade_deadline : Option Int
  current_round_start : Option Int
  current_round_end : Option Int
  sync_interval_minutes : Int
  last_synced_at : Option Int
  users_total : Int
  deriving DecidableEq

/-- The fixed trigger-type enum of game_triggers. -/
inductive TriggerType
  | deadline_reminder_24h
  | round_started
  | round_ended
  deriving DecidableEq

def TriggerType.str : TriggerType → String
  | .deadline_reminder_24h => "deadline_reminder_24h"
  | .round_started => "round_started"
  | .round_ended => "round_ended"

/-- Row of the game_triggers table (src/types GameTrigger). -/
structure GameTrigger where
  id : String
  game_id : String
  trigger_type : TriggerType
  braze_campaign_id : String
  is_active : Bool
  last_triggered_round : Option Int
  deriving DecidableEq

/-- Braze API JSON response body. -/
structure BrazeApiResponse where
  dispatch_id : Option String
  message : Option String
  errors : Option (List String)
  deriving DecidableEq

/-- Property bag sent with a campaign trigger. -/
structure BrazeTriggerProperties where
  game_key : String
  game_name : String
  current_round : Option Int
  total_rounds : Int
  trade_deadline : Option Int
  trigger_type : TriggerType
  deriving DecidableEq

/-- Result record of BrazeTriggerService.triggerBrazeCampaign. -/
structure BrazeCallResult where
  success : Bool
  response : Option BrazeApiResponse
  error : Option String
  deriving DecidableEq

/-- Outcome of the single fetch to the Braze campaign endpoint, as observed
by the service: an abort (timeout), a thrown transport error, a response
whose body is not JSON, or a JSON body with the HTTP ok flag. -/
inductive BrazeHttpOutcome
  | abortTimeout
  | fetchFailure (msg : String)
  | invalidJson (httpOk : Bool)
  | jsonBody (httpOk : Bool) (body : BrazeApiResponse)
  deriving DecidableEq

/-- Braze credentials taken from the environment; the empty string models an
unset variable (the getters default to the empty string). -/
structure BrazeEnv where
  brazeApiUrl : String
  brazeApiKey : String
  deriving DecidableEq

def BRAZE_REQUEST_TIMEOUT_MS : Int := 30000

/-- BrazeTriggerService.triggerBrazeCampaign. Returns the call result and the
number of HTTP requests performed (0 when credentials are missing). -/
def triggerBrazeCampaign (env : BrazeEnv) (campaignId : String)
    (triggerProperties : BrazeTriggerProperties) (outcome : BrazeHttpOutcome) :
    BrazeCallResult × Nat :=
  if env.brazeApiUrl = "" ∨ env.brazeApiKey = "" then
    ({ success := true,
       response := some { dispatch_id := none,
                          message := some "Skipped - no Braze credentials",
                          errors := none },
       error := none }, 0)
  else
    match outcome with
    | .abortTimeout =>
      ({ success := false, response := none, error := some "Braze request timeout" }, 1)
    | .fetchFailure msg =>
      ({ success := false, response := none, error := some msg }, 1)
    | .invalidJson _ =>
      ({ success := false, response := none, error := some "Invalid response from Braze" }, 1)
    | .jsonBody httpOk body =>
      if httpOk then
        ({ success := true, response := some body, error := none }, 1)
      else
        ({ success := false, response := none,
           error := some (jsOrOptStr body.message "Braze API error") }, 1)

/-- Result of one fire-condition check. -/
structure CheckResult where
  shouldTrigger : Bool
  reason : String
  deriving DecidableEq

def DEADLINE_REMINDER_MIN_HOURS : Int := 20

def DEADLINE_REMINDER_MAX_HOURS : Int := 28

/-- BrazeTriggerService.checkDeadlineReminder24h. -/
def checkDeadlineReminder24h (now : Int) (game : Game) (trigger : GameTrigger) :
    CheckResult :=
  match game.next_trade_deadline with
  | none => { shouldTrigger := false, reason := "No trade deadline set" }
  | some deadline =>
    let hoursUntilDeadline := differenceInHours deadline now
    if hoursUntilDeadline < DEADLINE_REMINDER_MIN_HOURS ∨
        hoursUntilDeadline > DEADLINE_REMINDER_MAX_HOURS then
      { shouldTrigger := false,
        reason := s!"Deadline is {hoursUntilDeadline}h away (need {DEADLINE_REMINDER_MIN_HOURS}-{DEADLINE_REMINDER_MAX_HOURS}h)" }
    else if trigger.last_triggered_round = game.current_round then
      let r := jsShowOptInt game.current_round
      { shouldTrigger := false, reason := s!"Already triggered for round {r}" }
    else
      { shouldTrigger := true, reason := "Deadline is within 24h window" }

/-- BrazeTriggerService.checkRoundStarted. -/
def checkRoundStarted (game : Game) (trigger : GameTrigger) : CheckResult :=
  if game.round_state ≠ some "CurrentOpen" then
    let s := jsShowOptStr game.round_state
    { shouldTrigger := false, reason := s!"Round state is {s}, not CurrentOpen" }
  else if trigger.last_triggered_round = game.current_round then
    let r := jsShowOptInt game.current_round
    { shouldTrigger := false, reason := s!"Already triggered for round {r}" }
  else
    { shouldTrigger := true, reason := "Round is now open" }

/-- BrazeTriggerService.checkRoundEnded (the source spells EndedLastest). -/
def checkRoundEnded (game : Game) (trigger : GameTrigger) : CheckResult :=
  if game.round_state ≠ some "Ended" ∧ game.round_state ≠ some "EndedLastest" then
    let s := jsShowOptStr game.round_state
    { shouldTrigger := false, reason := s!"Round state is {s}, not Ended" }
  else if trigger.last_triggered_round = game.current_round then
    let r := jsShowOptInt game.current_round
    { shouldTrigger := false, reason := s!"Already triggered for round {r}" }
  else
    { shouldTrigger := true, reason := "Round has ended" }

/-- BrazeTriggerService.checkTrigger. -/
def checkTrigger (now : Int) (game : Game) (trigger : GameTrigger) : CheckResult :=
  match trigger.trigger_type with
  | .deadline_reminder_24h => checkDeadlineReminder24h now game trigger
  | .round_started => checkRoundStarted game trigger
  | .round_ended => checkRoundEnded game trigger

/-- Status column of a trigger_logs row. -/
inductive TriggerLogStatus
  | triggered
  | failed
  | skipped
  deriving DecidableEq

/-- Row inserted into trigger_logs by BrazeTriggerService.logTrigger. -/
structure TriggerLogRow where
  game_id : String
  trigger_id : String
  trigger_type : TriggerType
  round_index : Int
  status : TriggerLogStatus
  braze_response : Option BrazeApiResponse
  error_message : Option String
  deriving DecidableEq

/-- Update applied to game_triggers by updateTriggerLastTriggered. -/
structure TriggerUpdateRow where
  trigger_id : String
  last_triggered_round : Int
  deriving DecidableEq

/-- Return value of BrazeTriggerService.processTrigger. -/
structure TriggerResult where
  success : Bool
  triggered : Bool
  message : String
  brazeResponse : Option BrazeApiResponse
  deriving DecidableEq

/-- Observable effects of one processTrigger run: its return value, the
trigger_logs rows inserted, the game_triggers updates applied, and the
number of calls made to triggerBrazeCampaign. -/
structure ProcessTriggerEffects where
  result : TriggerResult
  logs : List TriggerLogRow
  updates : List TriggerUpdateRow
  dispatchCalls : Nat
  deriving DecidableEq

/-- The trigger property bag built inline by processTrigger. -/
def propsOf (game : Game) (trigger : GameTrigger) : BrazeTriggerProperties :=
  { game_key := game.game_key, game_name := game.name,
    current_round := game.current_round, total_rounds := game.total_rounds,
    trade_deadline := game.next_trade_deadline,
    trigger_type := trigger.trigger_type }

/-- BrazeTriggerService.processTrigger. -/
def processTrigger (now : Int) (env : BrazeEnv) (outcome : BrazeHttpOutcome)
    (game : Game) (trigger : GameTrigger) : ProcessTriggerEffects :=
  let check := checkTrigger now game trigger
  if check.shouldTrigger = false then
    { result := { success := true, triggered := false, message := check.reason,
                  brazeResponse := none },
      logs := [], updates := [], dispatchCalls := 0 }
  else
    let callResult :=
      (triggerBrazeCampaign env trigger.braze_campaign_id (propsOf game trigger) outcome).1
    let roundIdx := jsOrIntOne game.current_round
    let logRow : TriggerLogRow :=
      { game_id := game.id, trigger_id := trigger.id,
        trigger_type := trigger.trigger_type, round_index := roundIdx,
        status := if callResult.success then TriggerLogStatus.triggered
                  else TriggerLogStatus.failed,
        braze_response := callResult.response,
        error_message := callResult.error }
    let updates : List TriggerUpdateRow :=
      if callResult.success then
        [{ trigger_id := trigger.id, last_triggered_round := roundIdx }]
      else []
    let tt := trigger.trigger_type.str
    let errShown := jsShowOptStr callResult.error
    { result := { success := callResult.success, triggered := true,
                  message := if callResult.success then s!"Campaign triggered for {tt}"
                             else s!"Failed to trigger: {errShown}",
                  brazeResponse := callResult.response },
      logs := [logRow], updates := updates, dispatchCalls := 1 }

/-!
SwushClient: request classification and retry policy (src swush-client).
A response is reduced to the three fields inspected by requestWithRetry:
whether data is non-null, the error string, and the HTTP status.  The
request helper maps a timeout to status 408 and a transport error or
invalid JSON to status 500, so the loop classifies purely on these fields.
-/

structure SwushApiResp where
  hasData : Bool
  error : Option String
  status : Int
  deriving DecidableEq

def MAX_RETRIES : Nat := 3

def RETRY_BASE_DELAY_MS : Nat := 1000

/-- The loop guard response.data AND NOT response.error (empty-string errors
are falsy in JS). -/
def isRespSuccess (r : SwushApiResp) : Bool :=
  r.hasData && (match r.error with | none => true | some s => s = "")

/-- 4xx other than 408 and 429: returned without retry. -/
def isNonRetryableClientError (r : SwushApiResp) : Bool :=
  (400 ≤ r.status && r.status < 500) && !(r.status = 408 || r.status = 429)

/-- A failed response the loop will retry. -/
def willRetry (r : SwushApiResp) : Bool :=
  !isRespSuccess r && !isNonRetryableClientError r

/-- The retry loop of SwushClient.requestWithRetry, from a given 1-based
attempt number with the given number of retries still allowed.  Returns the
response returned to the caller and the list of backoff delays slept, in
order.  With zero retries left every branch of the source loop body returns
the current response without sleeping. -/
def requestRetryGo (attempts : Nat → SwushApiResp) (attempt : Nat) :
    Nat → SwushApiResp × List Nat
  | 0 => (attempts attempt, [])
  | fuel + 1 =>
    let r := attempts attempt
    if isRespSuccess r then (r, [])
    else if isNonRetryableClientError r then (r, [])
    else
      let delay := RETRY_BASE_DELAY_MS * 2 ^ (attempt - 1)
      let rest := requestRetryGo attempts (attempt + 1) fuel
      (rest.1, delay :: rest.2)

/-- SwushClient.requestWithRetry: attempts 1 .. maxRetries+1. -/
def requestWithRetry (attempts : Nat → SwushApiResp) (maxRetries : Nat) :
    SwushApiResp × List Nat :=
  requestRetryGo attempts 1 maxRetries

/-- SwushClient.getUsers delegates to requestWithRetry with the default
retry budget MAX_RETRIES; the attempts function supplies the response of
each raw request. -/
def getUsersRequest (attempts : Nat → SwushApiResp) : SwushApiResp × List Nat :=
  requestWithRetry attempts MAX_RETRIES

/-- The exponential backoff delays slept after the first n failed attempts:
RETRY_BASE_DELAY_MS times 2 to the (attempt - 1). -/
def backoffDelays (n : Nat) : List Nat :=
  (List.range n).map (fun i => RETRY_BASE_DELAY_MS * 2 ^ i)

/-!
SyncService: user phase (syncUsers with progressive saving).
-/

/-- Upstream user record, reduced to the field the save path inspects. -/
structure SwushUser where
  swushId : Int
  name : String
  externalId : Option String
  deriving DecidableEq

/-- The filter user.externalId (JS truthiness: null, undefined and the
empty string are dropped). -/
def userHasExternalId (u : SwushUser) : Bool :=
  match u.externalId with
  | none => false
  | some s => s ≠ ""

structure SaveUsersOutcome where
  success : Bool
  count : Nat
  deriving DecidableEq

/-- SyncService.saveUsersPage: users lacking an external id are dropped;
an empty page is a success without a store write; otherwise the batched
upsert either succeeds with the filtered count or fails with count 0.
persistOk gives the outcome of the store upsert for this page. -/
def saveUsersPage (persistOk : Bool) (users : List SwushUser) : SaveUsersOutcome :=
  let withId := users.filter userHasExternalId
  if withId.length = 0 then { success := true, count := 0 }
  else if persistOk then { success := true, count := withId.length }
  else { success := false, count := 0 }

/-- Environment of one user-phase run: the outcome of the page-1 fetch
(total page count and page-1 users on success), the outcome of each later
page fetch, and the store outcome of each page upsert. -/
structure UsersPhaseEnv where
  firstFetch : Except String (Nat × List SwushUser)
  fetchPage : Nat → Except String (List SwushUser)
  persistOk : Nat → Bool

/-- Fetch and save one page (the body of the pages 2..N loop). -/
def fetchAndSavePage (fetchPage : Nat → Except String (List SwushUser))
    (persistOk : Nat → Bool) (page : Nat) : SaveUsersOutcome :=
  match fetchPage page with
  | .error _ => { success := false, count := 0 }
  | .ok users => saveUsersPage (persistOk page) users

/-- Accumulator step of the pages 2..N loop: threads the synced-user count
and the list of failed pages. -/
def pageStep (fetchPage : Nat → Except String (List SwushUser))
    (persistOk : Nat → Bool) (acc : Nat × List Nat) (page : Nat) : Nat × List Nat :=
  let r := fetchAndSavePage fetchPage persistOk page
  if r.success then (acc.1 + r.count, acc.2) else (acc.1, acc.2 ++ [page])

/-- The page numbers 2 .. totalPages. -/
def laterPages (totalPages : Nat) : List Nat := List.range' 2 (totalPages - 1)

/-- All page numbers 1 .. totalPages as visited by the run. -/
def allPages (totalPages : Nat) : List Nat := 1 :: laterPages totalPages

/-- Result record returned by the SyncService phase functions. -/
structure SyncResult where
  success : Bool
  gamesSynced : Option Nat
  elementsSynced : Option Nat
  usersSynced : Option Nat
  error : Option String
  deriving DecidableEq

/-- SyncService.syncUsers: learn the page count from page 1, save every
page as it arrives, and fail the phase when more than 10 percent of the
pages failed (the comparison failedPages / totalPages > 0.1 is taken as an
exact rational comparison, written failedPages * 10 > totalPages). -/
def syncUsers (env : UsersPhaseEnv) : SyncResult :=
  match env.firstFetch with
  | .error e =>
    { success := false, gamesSynced := none, elementsSynced := none,
      usersSynced := none, error := some (jsOrStr e "Failed to fetch users") }
  | .ok (totalPages, firstUsers) =>
    let firstResult := saveUsersPage (env.persistOk 1) firstUsers
    let init : Nat × List Nat :=
      if firstResult.success then (firstResult.count, []) else (0, [1])
    let acc := (laterPages totalPages).foldl (pageStep env.fetchPage env.persistOk) init
    let syncedCount := acc.1
    let failedPages := acc.2
    if failedPages.length * 10 > totalPages then
      let nf := failedPages.length
      let pct := jsRoundDiv ((nf : Int) * 100) (totalPages : Int)
      { success := false, gamesSynced := none, elementsSynced := none,
        usersSynced := some syncedCount,
        error := some s!"Too many failed pages: {nf}/{totalPages} ({pct}%)" }
    else
      { success := true, gamesSynced := none, elementsSynced := none,
        usersSynced := some syncedCount, error := none }

/-- The outcome of one page of a run, page 1 taken from the first fetch. -/
def runPageOutcome (env : UsersPhaseEnv) (firstUsers : List SwushUser)
    (page : Nat) : SaveUsersOutcome :=
  if page = 1 then saveUsersPage (env.persistOk 1) firstUsers
  else fetchAndSavePage env.fetchPage env.persistOk page

/-!
SyncService: element catalog phase (syncElements).
-/

/-- Upstream catalog element (src/types SwushElement).  The upstream record
carries no injury or suspension flag. -/
structure SwushElement where
  elementId : Int
  imageUrl : String
  shortName : String
  fullName : String
  teamName : String
  popularity : Int
  trend : Int
  growth : Int
  totalGrowth : Int
  value : Int
  deriving DecidableEq

/-- Row of the elements table (src/types Element). -/
structure ElementRow where
  game_id : String
  element_id : Int
  short_name : String
  full_name : String
  team_name : String
  image_url : String
  popularity : Int
  trend : Int
  growth : Int
  total_growth : Int
  value : Int
  is_injured : Bool
  is_suspended : Bool
  updated_at : Int
  deriving DecidableEq

/-- Exactly the columns syncElements writes per element; note the absence
of is_injured and is_suspended. -/
structure ElementUpsert where
  game_id : String
  element_id : Int
  short_name : String
  full_name : String
  team_name : String
  image_url : String
  popularity : Int
  trend : Int
  growth : Int
  total_growth : Int
  value : Int
  updated_at : Int
  deriving DecidableEq

/-- The upsert payload built by syncElements for one element. -/
def elementUpsertOf (gameId : String) (now : Int) (el : SwushElement) :
    ElementUpsert :=
  { game_id := gameId, element_id := el.elementId, short_name := el.shortName,
    full_name := el.fullName, team_name := jsOrStr el.teamName "",
    image_url := el.imageUrl, popularity := el.popularity, trend := el.trend,
    growth := el.growth, total_growth := el.totalGrowth, value := el.value,
    updated_at := now }

/-- The elements table keyed by its unique natural key (game_id, element_id). -/
abbrev ElementStore := String × Int → Option ElementRow

/-- Keyed upsert semantics: on conflict with (game_id, element_id), the
written columns are replaced and the unwritten columns (is_injured,
is_suspended) keep their stored values; on a miss a fresh row is inserted
with the schema defaults (false) for the unwritten flag columns. -/
def applyElementUpsert (store : ElementStore) (u : ElementUpsert) : ElementStore :=
  fun k =>
    if k = (u.game_id, u.element_id) then
      match store k with
      | some r =>
        some { game_id := u.game_id, element_id := u.element_id,
               short_name := u.short_name, full_name := u.full_name,
               team_name := u.team_name, image_url := u.image_url,
               popularity := u.popularity, trend := u.trend, growth := u.growth,
               total_growth := u.total_growth, value := u.value,
               is_injured := r.is_injured, is_suspended := r.is_suspended,
               updated_at := u.updated_at }
      | none =>
        some { game_id := u.game_id, element_id := u.element_id,
               short_name := u.short_name, full_name := u.full_name,
               team_name := u.team_name, image_url := u.image_url,
               popularity := u.popularity, trend := u.trend, growth := u.growth,
               total_growth := u.total_growth, value := u.value,
               is_injured := false, is_suspended := false,
               updated_at := u.updated_at }
    else store k

def applyElementUpserts (store : ElementStore) (us : List ElementUpsert) :
    ElementStore :=
  us.foldl applyElementUpsert store

def BATCH_SIZE : Nat := 100

/-- Fixed-size batching of the element list (the for loop stepping by
BATCH_SIZE over elements.slice). -/
def chunksOf (n : Nat) (l : List SwushElement) : List (List SwushElement) :=
  if h : l = [] ∨ n = 0 then []
  else l.take n :: chunksOf n (l.drop n)
termination_by l.length
decreasing_by
  push_neg at h
  cases l with
  | nil => exact absurd rfl h.1
  | cons a as => simp [List.length_drop]; omega

/-- The batch loop of syncElements: a failed batch upsert is logged and
skipped; the synced count reflects only successful batches.  batchOk gives
the store outcome of the i-th batch upsert. -/
def syncElementsBatches (gameId : String) (now : Int) (batchOk : Nat → Bool) :
    List (List SwushElement) → Nat → ElementStore → Nat × ElementStore
  | [], _, store => (0, store)
  | batch :: rest, i, store =>
    if batchOk i then
      let store2 := applyElementUpserts store (batch.map (elementUpsertOf gameId now))
      let r := syncElementsBatches gameId now batchOk rest (i + 1) store2
      (batch.length + r.1, r.2)
    else
      syncElementsBatches gameId now batchOk rest (i + 1) store

/-- SyncService.syncElements. -/
def syncElements (game : Game) (now : Int)
    (fetch : Except String (List SwushElement)) (batchOk : Nat → Bool)
    (store : ElementStore) : SyncResult × ElementStore :=
  match fetch with
  | .error e =>
    ({ success := false, gamesSynced := none, elementsSynced := none,
       usersSynced := none, error := some (jsOrStr e "Failed to fetch elements") },
     store)
  | .ok elements =>
    let r := syncElementsBatches game.id now batchOk (chunksOf BATCH_SIZE elements) 0 store
    ({ success := true, gamesSynced := none, elementsSynced := some r.1,
       usersSynced := none, error := none }, r.2)

/-!
SyncService: full-run orchestration (syncGame).
-/

inductive SyncPhase
  | details
  | elements
  | users
  deriving DecidableEq

/-- The sync_logs row inserted at run start. -/
structure SyncLogCreate where
  game_id : String
  sync_type : String
  status : String
  users_synced : Nat
  elements_synced : Nat
  deriving DecidableEq

/-- The finalizing update of the sync_logs row (a none field is a column
the update leaves untouched). -/
structure SyncLogFinal where
  status : String
  users_synced : Option Nat
  elements_synced : Option Nat
  error_message : Option String
  deriving DecidableEq

/-- Payload of alertService.alertSyncFailure as invoked by syncGame. -/
structure SyncFailureAlert where
  gameKey : String
  gameName : Option String
  error : String
  lastSuccessfulSync : Option Int
  deriving DecidableEq

/-- Observable effects of one syncGame run. -/
structure SyncGameEffects where
  result : SyncResult
  phasesRun : List SyncPhase
  logCreated : SyncLogCreate
  logFinal : Option SyncLogFinal
  alerts : List SyncFailureAlert
  deriving DecidableEq

/-- The message of the Error thrown from a failed phase result. -/
def errMsgOf (r : SyncResult) : String :=
  match r.error with
  | some e => e
  | none => ""

/-- The shared failure path of syncGame (catch block): finalize the log as
failed when a log row was created, alert, and return the failure. -/
def syncGameFail (game : Game) (logCreated : SyncLogCreate) (logCreateOk : Bool)
    (phases : List SyncPhase) (msg : String) : SyncGameEffects :=
  { result := { success := false, gamesSynced := none, elementsSynced := none,
                usersSynced := none, error := some msg },
    phasesRun := phases,
    logCreated := logCreated,
    logFinal := if logCreateOk then
        some { status := "failed", users_synced := none, elements_synced := none,
               error_message := some msg }
      else none,
    alerts := [{ gameKey := game.game_key, gameName := some game.name,
                 error := msg, lastSuccessfulSync := game.last_synced_at }] }

/-- SyncService.syncGame, parameterized by the outcome of sync-log creation
and the result each phase would produce if run.  phasesRun records which
phases actually executed, in order. -/
def syncGame (game : Game) (syncType : String) (logCreateOk : Bool)
    (rDetails rElements rUsers : SyncResult) : SyncGameEffects :=
  let logCreated : SyncLogCreate :=
    { game_id := game.id, sync_type := syncType, status := "started",
      users_synced := 0, elements_synced := 0 }
  if rDetails.success = false then
    syncGameFail game logCreated logCreateOk [SyncPhase.details] (errMsgOf rDetails)
  else if rElements.success = false then
    syncGameFail game logCreated logCreateOk [SyncPhase.details, SyncPhase.elements]
      (errMsgOf rElements)
  else if rUsers.success = false then
    syncGameFail game logCreated logCreateOk
      [SyncPhase.details, SyncPhase.elements, SyncPhase.users] (errMsgOf rUsers)
  else
    { result := { success := true, gamesSynced := some 1,
                  elementsSynced := rElements.elementsSynced,
                  usersSynced := rUsers.usersSynced, error := none },
      phasesRun := [SyncPhase.details, SyncPhase.elements, SyncPhase.users],
      logCreated := logCreated,
      logFinal := if logCreateOk then
          some { status := "completed",
                 users_synced := some (match rUsers.usersSynced with
                   | some n => n | none => 0),
                 elements_synced := some (match rElements.elementsSynced with
                   | some n => n | none => 0),
                 error_message := none }
        else none,
      alerts := [] }

/-!
SyncService: due-for-sync scheduling (isInCriticalPeriod, getGamesDueForSync).
-/

/-- SyncService.isInCriticalPeriod: the three window checks in source order,
each comparison taken at exact millisecond precision. -/
def isInCriticalPeriod (now : Int) (game : Game) : Bool × String :=
  let startPart : Option String :=
    match game.current_round_start with
    | some roundStart =>
      if 0 < roundStart - now ∧ roundStart - now ≤ 2 * msPerHour then
        let m := jsRoundDiv (roundStart - now) msPerMinute
        some s!"Round starting in {m} minutes"
      else none
    | none => none
  match startPart with
  | some reason => (true, reason)
  | none =>
    let deadlinePart : Option String :=
      match game.next_trade_deadline with
      | some deadline =>
        if 0 < deadline - now ∧ deadline - now ≤ 2 * msPerHour then
          let m := jsRoundDiv (deadline - now) msPerMinute
          some s!"Trade deadline in {m} minutes"
        else none
      | none => none
    match deadlinePart with
    | some reason => (true, reason)
    | none =>
      let endPart : Option String :=
        match game.current_round_end with
        | some roundEnd =>
          if (game.round_state = some "Ended" ∨ game.round_state = some "EndedLastest") ∧
              0 ≤ now - roundEnd ∧ now - roundEnd ≤ msPerHour then
            let m := jsRoundDiv (now - roundEnd) msPerMinute
            some s!"Round ended {m} minutes ago"
          else none
        | none => none
      match endPart with
      | some reason => (true, reason)
      | none => (false, "")

/-- The per-game due decision inside getGamesDueForSync. -/
def gameDue (now : Int) (game : Game) : Bool :=
  match game.last_synced_at with
  | none => true
  | some lastSync =>
    if (isInCriticalPeriod now game).1 then
      decide (now - lastSync ≥ 30 * msPerMinute)
    else
      decide (now - lastSync ≥ game.sync_interval_minutes * msPerMinute)

/-- SyncService.getGamesDueForSync over the list of stored games (the query
restricts to active games). -/
def getGamesDueForSync (now : Int) (games : List Game) : List Game :=
  (games.filter (fun g => g.is_active)).filter (gameDue now)

/-!
Concrete fixtures used by the instance parts, witnesses and counterexamples.
-/

def baseGame : Game :=
  { id := "g1", game_key := "fantasy", name := "Fantasy Manager",
    subsite_key := "se", is_active := true, current_round := some 5,
    total_rounds := 30, round_state := some "CurrentOpen",
    next_trade_deadline := none, current_round_start := none,
    current_round_end := none, sync_interval_minutes := 60,
    last_synced_at := none, users_total := 1000 }

def brazeEnvOk : BrazeEnv :=
  { brazeApiUrl := "https://rest.braze.eu", brazeApiKey := "key" }

def outcomeOk : BrazeHttpOutcome :=
  .jsonBody true { dispatch_id := some "d1", message := none, errors := none }

def outcomeRefused : BrazeHttpOutcome :=
  .jsonBody false { dispatch_id := none, message := some "campaign not found",
                    errors := none }

def trigRS5 : GameTrigger :=
  { id := "t1", game_id := "g1", trigger_type := .round_started,
    braze_campaign_id := "c1", is_active := true, last_triggered_round := some 5 }

def trigDL4 : GameTrigger :=
  { id := "t2", game_id := "g1", trigger_type := .deadline_reminder_24h,
    braze_campaign_id := "c2", is_active := true, last_triggered_round := some 4 }

def gameRound6 : Game := { baseGame with current_round := some 6 }

def gameSkip : Game := { baseGame with round_state := some "Pending" }

def gameNoRound : Game := { baseGame with current_round := none }

/-- Claim C7: the deadline_reminder_24h trigger fires iff next_trade_deadline
is set, the (full, truncated) hours until the deadline lie in [20, 28], and
last_triggered_round differs from current_round; 25 hours away fires, 19 and
29 hours away do not. -/
theorem deadline_reminder_window_c7 :
    (∀ (now : Int) (game : Game) (trigger : GameTrigger),
      (checkDeadlineReminder24h now game trigger).shouldTrigger = true ↔
        ∃ d, game.next_trade_deadline = some d ∧
          DEADLINE_REMINDER_MIN_HOURS ≤ differenceInHours d now ∧
          differenceInHours d now ≤ DEADLINE_REMINDER_MAX_HOURS ∧
          trigger.last_triggered_round ≠ game.current_round) ∧
    (checkDeadlineReminder24h 0
      { baseGame with next_trade_deadline := some (25 * msPerHour) } trigDL4).shouldTrigger = true ∧
    (checkDeadlineReminder24h 0
      { baseGame with next_trade_deadline := some (19 * msPerHour) } trigDL4).shouldTrigger = false ∧
    (checkDeadlineReminder24h 0
      { baseGame with next_trade_deadline := some (29 * msPerHour) } trigDL4).shouldTrigger = false := by
  refine ⟨?_, by decide, by decide, by decide⟩
  intro now game trigger
  unfold checkDeadlineReminder24h
  cases hnd : game.next_trade_deadline with
  | none => simp
  | some d =>
    simp only []
    split_ifs with hout heq
    · constructor
      · intro h; exact absurd h (by simp)
      · rintro ⟨d2, hd2, hmin, hmax, hne⟩
        obtain rfl : d = d2 := Option.some.inj hd2
        rcases hout with h1 | h2
        · exact absurd hmin (not_le.mpr h1)
        · exact absurd hmax (not_le.mpr h2)
    · constructor
      · intro h; exact absurd h (by simp)
      · rintro ⟨d2, hd2, hmin, hmax, hne⟩
        exact absurd heq hne
    · constructor
      · intro _
        push_neg at hout
        exact ⟨d, rfl, hout.1, hout.2, heq⟩
      · intro _; rfl

/-- Claim C7 witness: the general part applied at the 25-hour fixture. -/
theorem deadline_reminder_window_c7_witness :
    (checkDeadlineReminder24h 0
      { baseGame with next_trade_deadline := some (25 * msPerHour) } trigDL4).shouldTrigger = true := by
  have h := (deadline_reminder_window_c7.1 0
    { baseGame with next_trade_deadline := some (25 * msPerHour) } trigDL4).2
  exact h ⟨25 * msPerHour, rfl, by decide, by decide, by decide⟩

/-- Claim C1: when a trigger fires (fire condition true) for a game with a
nonzero current round r: on dispatch success the run updates
last_triggered_round to r and inserts a triggered trigger_logs row carrying
the raw response; on dispatch failure it applies no update (the watermark is
unchanged, so the next cycle fires again) and inserts a failed row carrying
the error.  The instance parts check the exactly-once example: current round
5 with watermark 5 is skipped for round_started; current round 6 with the
same watermark is triggered and advances the watermark to 6. -/
theorem braze_trigger_watermark_c1 :
    (∀ (now : Int) (env : BrazeEnv) (outcome : BrazeHttpOutcome) (game : Game)
        (trigger : GameTrigger) (r : Int),
      game.current_round = some r → r ≠ 0 →
      (checkTrigger now game trigger).shouldTrigger = true →
      (let call := (triggerBrazeCampaign env trigger.braze_campaign_id
          (propsOf game trigger) outcome).1
       let eff := processTrigger now env outcome game trigger
       (call.success = true →
          eff.updates = [{ trigger_id := trigger.id, last_triggered_round := r }] ∧
          eff.logs = [{ game_id := game.id, trigger_id := trigger.id,
                        trigger_type := trigger.trigger_type, round_index := r,
                        status := TriggerLogStatus.triggered,
                        braze_response := call.response,
                        error_message := call.error }]) ∧
       (call.success = false →
          eff.updates = [] ∧
          eff.logs = [{ game_id := game.id, trigger_id := trigger.id,
                        trigger_type := trigger.trigger_type, round_index := r,
                        status := TriggerLogStatus.failed,
                        braze_response := call.response,
                        error_message := call.error }]))) ∧
    (checkTrigger 0 baseGame trigRS5).shouldTrigger = false ∧
    (processTrigger 0 brazeEnvOk outcomeOk baseGame trigRS5).result.triggered = false ∧
    (checkTrigger 0 gameRound6 trigRS5).shouldTrigger = true ∧
    (processTrigger 0 brazeEnvOk outcomeOk gameRound6 trigRS5).updates =
      [{ trigger_id := "t1", last_triggered_round := 6 }] ∧
    (processTrigger 0 brazeEnvOk outcomeRefused gameRound6 trigRS5).updates = [] ∧
    (processTrigger 0 brazeEnvOk outcomeRefused gameRound6 trigRS5).logs.map
      (fun l => l.status) = [TriggerLogStatus.failed] := by
  refine ⟨?_, by decide, by decide, by decide, by decide, by decide, by decide⟩
  intro now env outcome game trigger r hr hr0 hfire
  simp only [processTrigger, hfire, Bool.true_eq_false, if_false]
  have hidx : jsOrIntOne game.current_round = r := by
    simp [jsOrIntOne, hr, hr0]
  constructor
  · intro hs
    simp [hs, hidx]
  · intro hs
    simp [hs, hidx]

/-- Claim C1 witness: the general part applied at the round-6 fixture with a
successful dispatch. -/
theorem braze_trigger_watermark_c1_witness :
    (processTrigger 0 brazeEnvOk outcomeOk gameRound6 trigRS5).updates =
      [{ trigger_id := "t1", last_triggered_round := 6 }] := by
  have h := braze_trigger_watermark_c1.1 0 brazeEnvOk outcomeOk gameRound6 trigRS5 6
    (by decide) (by decide) (by decide)
  simpa using (h.1 (by decide)).1

/-- Claim C6 counterexample: for an active trigger of an active game whose
fire condition is false, the run inserts no trigger_logs row at all, in
particular no skipped row. -/
theorem skipped_log_c6_counterexample :
    (checkTrigger 0 gameSkip trigRS5).shouldTrigger = false ∧
    gameSkip.is_active = true ∧ trigRS5.is_active = true ∧
    (processTrigger 0 brazeEnvOk outcomeOk gameSkip trigRS5).logs = [] := by
  decide

/-- Claim C6 as amended: when the fire condition is false, the evaluation
performs no campaign dispatch and writes no trigger_logs row or trigger
update; the human-readable reason is returned in the result message with
success true and triggered false. -/
theorem skip_no_dispatch_c6_amended :
    ∀ (now : Int) (env : BrazeEnv) (outcome : BrazeHttpOutcome) (game : Game)
      (trigger : GameTrigger),
      (checkTrigger now game trigger).shouldTrigger = false →
      processTrigger now env outcome game trigger =
        { result := { success := true, triggered := false,
                      message := (checkTrigger now game trigger).reason,
                      brazeResponse := none },
          logs := [], updates := [], dispatchCalls := 0 } := by
  intro now env outcome game trigger h
  simp [processTrigger, h]

/-- Claim C6 witness: the amended theorem applied at the skip fixture. -/
theorem skip_no_dispatch_c6_witness :
    processTrigger 0 brazeEnvOk outcomeOk gameSkip trigRS5 =
      { result := { success := true, triggered := false,
                    message := (checkTrigger 0 gameSkip trigRS5).reason,
                    brazeResponse := none },
        logs := [], updates := [], dispatchCalls := 0 } :=
  skip_no_dispatch_c6_amended 0 brazeEnvOk outcomeOk gameSkip trigRS5 (by decide)

/-- Claim C9 counterexample: a timeout and a non-2xx response are reported
only through the error string of an otherwise identical result record, and
the two results are literally equal when the non-2xx body message is the
timeout text, so the timeout is not a distinct error kind. -/
theorem braze_timeout_kind_c9_counterexample :
    (triggerBrazeCampaign brazeEnvOk "c1" (propsOf baseGame trigRS5)
      (.jsonBody false { dispatch_id := none,
                         message := some "Braze request timeout",
                         errors := none })).1 =
    (triggerBrazeCampaign brazeEnvOk "c1" (propsOf baseGame trigRS5)
      .abortTimeout).1 := by
  decide

/-- Claim C9 as amended: the request timeout is the fixed 30000 ms constant;
with no credentials configured, dispatch is a no-op success (zero HTTP
calls) with a Skipped message; a timeout yields the fixed error string
"Braze request timeout" while a non-2xx response yields the body message
(default "Braze API error"), and the two reports differ exactly when those
strings differ. -/
theorem braze_dispatch_c9_amended :
    BRAZE_REQUEST_TIMEOUT_MS = 30000 ∧
    (∀ (env : BrazeEnv) (cid : String) (props : BrazeTriggerProperties)
        (outcome : BrazeHttpOutcome),
      env.brazeApiUrl = "" ∨ env.brazeApiKey = "" →
      triggerBrazeCampaign env cid props outcome =
        ({ success := true,
           response := some { dispatch_id := none,
                              message := some "Skipped - no Braze credentials",
                              errors := none },
           error := none }, 0)) ∧
    (∀ (env : BrazeEnv) (cid : String) (props : BrazeTriggerProperties),
      env.brazeApiUrl ≠ "" → env.brazeApiKey ≠ "" →
      ((triggerBrazeCampaign env cid props .abortTimeout).1 =
        { success := false, response := none,
          error := some "Braze request timeout" } ∧
       (∀ body, (triggerBrazeCampaign env cid props (.jsonBody false body)).1 =
         { success := false, response := none,
           error := some (jsOrOptStr body.message "Braze API error") }) ∧
       (∀ body, jsOrOptStr body.message "Braze API error" ≠ "Braze request timeout" →
         (triggerBrazeCampaign env cid props (.jsonBody false body)).1 ≠
           (triggerBrazeCampaign env cid props .abortTimeout).1))) := by
  refine ⟨rfl, ?_, ?_⟩
  · intro env cid props outcome h
    unfold triggerBrazeCampaign
    rw [if_pos h]
  · intro env cid props hu hk
    have hcond : ¬(env.brazeApiUrl = "" ∨ env.brazeApiKey = "") := by
      rintro (h | h)
      · exact hu h
      · exact hk h
    refine ⟨?_, ?_, ?_⟩
    · simp [triggerBrazeCampaign, hcond]
    · intro body
      simp [triggerBrazeCampaign, hcond]
    · intro body hne heq
      simp [triggerBrazeCampaign, hcond, BrazeCallResult.mk.injEq] at heq
      exact hne heq

/-- Claim C9 witness: the amended theorem applied with credentials missing
and with credentials present on a timeout outcome. -/
theorem braze_dispatch_c9_witness :
    triggerBrazeCampaign { brazeApiUrl := "", brazeApiKey := "" } "c1"
        (propsOf baseGame trigRS5) .abortTimeout =
      ({ success := true,
         response := some { dispatch_id := none,
                            message := some "Skipped - no Braze credentials",
                            errors := none },
         error := none }, 0) ∧
    (triggerBrazeCampaign brazeEnvOk "c1" (propsOf baseGame trigRS5)
        .abortTimeout).1 =
      { success := false, response := none,
        error := some "Braze request timeout" } := by
  refine ⟨braze_dispatch_c9_amended.2.1 _ "c1" _ .abortTimeout (Or.inl rfl), ?_⟩
  exact (braze_dispatch_c9_amended.2.2 brazeEnvOk "c1" (propsOf baseGame trigRS5)
    (by decide) (by decide)).1

/-- Claim C10: when the fire condition holds for a game whose current_round
is null or 0, the run logs round_index 1 and, on dispatch success, sets
last_triggered_round to 1 (the source defaults with current_round OR 1). -/
theorem trigger_round_default_c10 :
    ∀ (now : Int) (env : BrazeEnv) (outcome : BrazeHttpOutcome) (game : Game)
      (trigger : GameTrigger),
      (game.current_round = none ∨ game.current_round = some 0) →
      (checkTrigger now game trigger).shouldTrigger = true →
      (let eff := processTrigger now env outcome game trigger
       eff.logs.map (fun l => l.round_index) = [1] ∧
       ((triggerBrazeCampaign env trigger.braze_campaign_id
           (propsOf game trigger) outcome).1.success = true →
         eff.updates = [{ trigger_id := trigger.id, last_triggered_round := 1 }])) := by
  intro now env outcome game trigger hcr hfire
  have hidx : jsOrIntOne game.current_round = 1 := by
    rcases hcr with h | h <;> simp [jsOrIntOne, h]
  simp only [processTrigger, hfire, Bool.true_eq_false, if_false]
  constructor
  · simp [hidx]
  · intro hs
    simp [hs, hidx]

/-- Claim C10 witness: applied at a fixture with current_round null. -/
theorem trigger_round_default_c10_witness :
    (processTrigger 0 brazeEnvOk outcomeOk gameNoRound trigRS5).logs.map
      (fun l => l.round_index) = [1] :=
  (trigger_round_default_c10 0 brazeEnvOk outcomeOk gameNoRound trigRS5
    (Or.inl (by decide)) (by decide)).1

/-- A response the loop retries is neither a success nor a non-retryable
client error. -/
theorem willRetry_elim {r : SwushApiResp} (h : willRetry r = true) :
    isRespSuccess r = false ∧ isNonRetryableClientError r = false := by
  revert h
  cases hs : isRespSuccess r <;> cases hn : isNonRetryableClientError r <;>
    simp [willRetry, hs, hn]

/-- Claim C3: the paginated-users call makes at most MAX_RETRIES + 1 = 4
attempts.  If attempts before k are retried failures, then: a success at
attempt k is returned at once after backoff delays 1000 * 2^(j-1) for the
failed attempts j < k; a failed 4xx response at attempt k other than
408/429 is returned at once with no further delay; and when every attempt
is a retried failure the 4th (last) response is returned after delays
1000, 2000, 4000 ms. -/
theorem request_retry_policy_c3 :
    MAX_RETRIES = 3 ∧ RETRY_BASE_DELAY_MS = 1000 ∧
    backoffDelays 3 = [1000, 2000, 4000] ∧
    (∀ (attempts : Nat → SwushApiResp),
      (∀ k, 1 ≤ k → k ≤ MAX_RETRIES + 1 →
        (∀ j, 1 ≤ j → j < k → willRetry (attempts j) = true) →
        isRespSuccess (attempts k) = true →
        getUsersRequest attempts = (attempts k, backoffDelays (k - 1))) ∧
      (∀ k, 1 ≤ k → k ≤ MAX_RETRIES + 1 →
        (∀ j, 1 ≤ j → j < k → willRetry (attempts j) = true) →
        isRespSuccess (attempts k) = false →
        isNonRetryableClientError (attempts k) = true →
        getUsersRequest attempts = (attempts k, backoffDelays (k - 1))) ∧
      ((∀ j, 1 ≤ j → j ≤ MAX_RETRIES + 1 → willRetry (attempts j) = true) →
        getUsersRequest attempts = (attempts 4, backoffDelays 3))) := by
  refine ⟨rfl, rfl, by decide, ?_⟩
  intro attempts
  refine ⟨?_, ?_, ?_⟩
  · intro k hk1 hk4 hprev hsucc
    have hk4n : k ≤ 4 := by simpa [MAX_RETRIES] using hk4
    interval_cases k
    · simp [getUsersRequest, requestWithRetry, MAX_RETRIES, requestRetryGo,
        hsucc, backoffDelays]
    · have w1 := willRetry_elim (hprev 1 (by norm_num) (by norm_num))
      simp [getUsersRequest, requestWithRetry, MAX_RETRIES, requestRetryGo,
        w1.1, w1.2, hsucc, backoffDelays, RETRY_BASE_DELAY_MS, List.range_succ]
    · have w1 := willRetry_elim (hprev 1 (by norm_num) (by norm_num))
      have w2 := willRetry_elim (hprev 2 (by norm_num) (by norm_num))
      simp [getUsersRequest, requestWithRetry, MAX_RETRIES, requestRetryGo,
        w1.1, w1.2, w2.1, w2.2, hsucc, backoffDelays, RETRY_BASE_DELAY_MS,
        List.range_succ]
    · have w1 := willRetry_elim (hprev 1 (by norm_num) (by norm_num))
      have w2 := willRetry_elim (hprev 2 (by norm_num) (by norm_num))
      have w3 := willRetry_elim (hprev 3 (by norm_num) (by norm_num))
      simp [getUsersRequest, requestWithRetry, MAX_RETRIES, requestRetryGo,
        w1.1, w1.2, w2.1, w2.2, w3.1, w3.2, hsucc, backoffDelays,
        RETRY_BASE_DELAY_MS, List.range_succ]
  · intro k hk1 hk4 hprev hfail hclient
    have hk4n : k ≤ 4 := by simpa [MAX_RETRIES] using hk4
    interval_cases k
    · simp [getUsersRequest, requestWithRetry, MAX_RETRIES, requestRetryGo,
        hfail, hclient, backoffDelays]
    · have w1 := willRetry_elim (hprev 1 (by norm_num) (by norm_num))
      simp [getUsersRequest, requestWithRetry, MAX_RETRIES, requestRetryGo,
        w1.1, w1.2, hfail, hclient, backoffDelays, RETRY_BASE_DELAY_MS,
        List.range_succ]
    · have w1 := willRetry_elim (hprev 1 (by norm_num) (by norm_num))
      have w2 := willRetry_elim (hprev 2 (by norm_num) (by norm_num))
      simp [getUsersRequest, requestWithRetry, MAX_RETRIES, requestRetryGo,
        w1.1, w1.2, w2.1, w2.2, hfail, hclient, backoffDelays,
        RETRY_BASE_DELAY_MS, List.range_succ]
    · have w1 := willRetry_elim (hprev 1 (by norm_num) (by norm_num))
      have w2 := willRetry_elim (hprev 2 (by norm_num) (by norm_num))
      have w3 := willRetry_elim (hprev 3 (by norm_num) (by norm_num))
      simp [getUsersRequest, requestWithRetry, MAX_RETRIES, requestRetryGo,
        w1.1, w1.2, w2.1, w2.2, w3.1, w3.2, hfail, hclient, backoffDelays,
        RETRY_BASE_DELAY_MS, List.range_succ]
  · intro hall
    have w1 := willRetry_elim (hall 1 (by norm_num) (by simp [MAX_RETRIES]))
    have w2 := willRetry_elim (hall 2 (by norm_num) (by simp [MAX_RETRIES]))
    have w3 := willRetry_elim (hall 3 (by norm_num) (by simp [MAX_RETRIES]))
    simp [getUsersRequest, requestWithRetry, MAX_RETRIES, requestRetryGo,
      w1.1, w1.2, w2.1, w2.2, w3.1, w3.2, backoffDelays, RETRY_BASE_DELAY_MS,
      List.range_succ]

/-- Claim C3 witness: a sequence that fails with 503 three times and
succeeds on the 4th attempt succeeds with delays 1000, 2000, 4000. -/
theorem request_retry_policy_c3_witness :
    getUsersRequest (fun j => if j ≤ 3
        then { hasData := false, error := some "HTTP 503: Service Unavailable", status := 503 }
        else { hasData := true, error := none, status := 200 }) =
      ({ hasData := true, error := none, status := 200 }, backoffDelays 3) := by
  have h := (request_retry_policy_c3.2.2.2 (fun j => if j ≤ 3
      then { hasData := false, error := some "HTTP 503: Service Unavailable", status := 503 }
      else { hasData := true, error := none, status := 200 })).1 4
    (by norm_num) (by decide) (by intro j h1 h2; interval_cases j <;> decide)
    (by decide)
  simpa using h

/-- Claim C5: with the sync-log row created, the three phases run strictly
in order and any failing phase stops the run: the log is finalized failed
with the phase error, one alert is sent with the game identity, the failure
reason and the last known good last_synced_at, and the failure is returned;
on success the log is finalized completed with the final counts. -/
theorem sync_game_phases_c5 :
    ∀ (game : Game) (syncType : String) (r1 r2 r3 : SyncResult),
      (let eff := syncGame game syncType true r1 r2 r3
       (r1.success = false →
          eff.phasesRun = [SyncPhase.details] ∧
          eff.logFinal = some (SyncLogFinal.mk "failed" none none (some (errMsgOf r1))) ∧
          eff.alerts = [SyncFailureAlert.mk game.game_key (some game.name)
                          (errMsgOf r1) game.last_synced_at] ∧
          eff.result = SyncResult.mk false none none none (some (errMsgOf r1))) ∧
       (r1.success = true → r2.success = false →
          eff.phasesRun = [SyncPhase.details, SyncPhase.elements] ∧
          eff.logFinal = some (SyncLogFinal.mk "failed" none none (some (errMsgOf r2))) ∧
          eff.alerts = [SyncFailureAlert.mk game.game_key (some game.name)
                          (errMsgOf r2) game.last_synced_at] ∧
          eff.result = SyncResult.mk false none none none (some (errMsgOf r2))) ∧
       (r1.success = true → r2.success = true → r3.success = false →
          eff.phasesRun = [SyncPhase.details, SyncPhase.elements, SyncPhase.users] ∧
          eff.logFinal = some (SyncLogFinal.mk "failed" none none (some (errMsgOf r3))) ∧
          eff.alerts = [SyncFailureAlert.mk game.game_key (some game.name)
                          (errMsgOf r3) game.last_synced_at] ∧
          eff.result = SyncResult.mk false none none none (some (errMsgOf r3))) ∧
       (r1.success = true → r2.success = true → r3.success = true →
          eff.phasesRun = [SyncPhase.details, SyncPhase.elements, SyncPhase.users] ∧
          eff.logFinal = some (SyncLogFinal.mk "completed"
                          (some (match r3.usersSynced with | some n => n | none => 0))
                          (some (match r2.elementsSynced with | some n => n | none => 0))
                          none) ∧
          eff.alerts = [] ∧
          eff.result = SyncResult.mk true (some 1) r2.elementsSynced
                          r3.usersSynced none)) := by
  intro game syncType r1 r2 r3
  refine ⟨?_, ?_, ?_, ?_⟩
  · intro h1
    simp [syncGame, syncGameFail, h1]
  · intro h1 h2
    simp [syncGame, syncGameFail, h1, h2]
  · intro h1 h2 h3
    simp [syncGame, syncGameFail, h1, h2, h3]
  · intro h1 h2 h3
    simp [syncGame, h1, h2, h3]

def phaseOkC5 : SyncResult := SyncResult.mk true (some 1) none none none

def phaseElemsC5 : SyncResult := SyncResult.mk true none (some 250) none none

def phaseUsersFailC5 : SyncResult :=
  SyncResult.mk false none none (some 40) (some "Too many failed pages: 2/11 (18%)")

/-- Claim C5 witness: applied at a run whose user phase fails. -/
theorem sync_game_phases_c5_witness :
    (syncGame baseGame "scheduled" true phaseOkC5 phaseElemsC5 phaseUsersFailC5).alerts =
      [SyncFailureAlert.mk baseGame.game_key (some baseGame.name)
        (errMsgOf phaseUsersFailC5) baseGame.last_synced_at] := by
  have h := sync_game_phases_c5 baseGame "scheduled" phaseOkC5 phaseElemsC5 phaseUsersFailC5
  exact (h.2.2.1 rfl rfl rfl).2.2.1

/-- The critical-period condition exactly as claim C4 words it: round start
within the next 2 hours, trade deadline within the next 2 hours, or round
end within the past 1 hour, with no further condition. -/
def claimCriticalC4 (now : Int) (game : Game) : Bool :=
  (match game.current_round_start with
   | some t => decide (0 < t - now ∧ t - now ≤ 2 * msPerHour)
   | none => false) ||
  (match game.next_trade_deadline with
   | some t => decide (0 < t - now ∧ t - now ≤ 2 * msPerHour)
   | none => false) ||
  (match game.current_round_end with
   | some t => decide (0 ≤ now - t ∧ now - t ≤ msPerHour)
   | none => false)

/-- The due predicate exactly as claim C4 words it. -/
def claimDueC4 (now : Int) (game : Game) : Bool :=
  match game.last_synced_at with
  | none => true
  | some lastSync =>
    if claimCriticalC4 now game then decide (now - lastSync ≥ 30 * msPerMinute)
    else decide (now - lastSync ≥ game.sync_interval_minutes * msPerMinute)

/-- An active game whose round ended 30 minutes ago but whose round_state is
still CurrentOpen, last synced 40 minutes before now, routine interval 60. -/
def gameC4 : Game :=
  { baseGame with
      round_state := some "CurrentOpen",
      current_round_end := some (10 * msPerMinute),
      last_synced_at := some 0 }

/-- Claim C4 counterexample: at now = 40 minutes, the claim calls gameC4
critical (round end within the past hour) and hence due (40 >= 30 minutes
elapsed), but the source additionally requires round_state Ended or
EndedLastest for the round-end window, so the game is on the routine
cadence (40 < 60) and getGamesDueForSync omits it. -/
theorem games_due_critical_c4_counterexample :
    claimDueC4 (40 * msPerMinute) gameC4 = true ∧
    gameC4.is_active = true ∧
    gameDue (40 * msPerMinute) gameC4 = false ∧
    getGamesDueForSync (40 * msPerMinute) [gameC4] = [] := by
  decide

/-- The critical-period condition as amended: the round-end window holds
only when round_state is Ended or EndedLastest. -/
def amendedCriticalC4 (now : Int) (game : Game) : Bool :=
  (match game.current_round_start with
   | some t => decide (0 < t - now ∧ t - now ≤ 2 * msPerHour)
   | none => false) ||
  (match game.next_trade_deadline with
   | some t => decide (0 < t - now ∧ t - now ≤ 2 * msPerHour)
   | none => false) ||
  (match game.current_round_end with
   | some t => decide ((game.round_state = some "Ended" ∨
       game.round_state = some "EndedLastest") ∧ 0 ≤ now - t ∧ now - t ≤ msPerHour)
   | none => false)

/-- The boolean decision of isInCriticalPeriod agrees with the amended
three-window condition. -/
theorem isInCriticalPeriod_fst (now : Int) (game : Game) :
    (isInCriticalPeriod now game).1 = amendedCriticalC4 now game := by
  unfold isInCriticalPeriod amendedCriticalC4
  cases hs : game.current_round_start <;>
    cases hd : game.next_trade_deadline <;>
      cases he : game.current_round_end <;>
        simp only [] <;> (try split_ifs) <;> simp_all

/-- Claim C4 as amended: a never-synced active game is always due; a game in
an amended critical window is due iff at least 30 minutes elapsed since
last_synced_at; any other game is due iff the elapsed time reaches its
sync_interval_minutes; and getGamesDueForSync returns exactly the active due
games. -/
theorem games_due_for_sync_c4_amended :
    ∀ (now : Int) (game : Game),
      (game.last_synced_at = none → gameDue now game = true) ∧
      (∀ lastSync, game.last_synced_at = some lastSync →
        (amendedCriticalC4 now game = true →
          (gameDue now game = true ↔ now - lastSync ≥ 30 * msPerMinute)) ∧
        (amendedCriticalC4 now game = false →
          (gameDue now game = true ↔
            now - lastSync ≥ game.sync_interval_minutes * msPerMinute))) ∧
      (∀ games, game ∈ getGamesDueForSync now games ↔
        game ∈ games ∧ game.is_active = true ∧ gameDue now game = true) := by
  intro now game
  refine ⟨?_, ?_, ?_⟩
  · intro h
    simp [gameDue, h]
  · intro lastSync hls
    constructor
    · intro hc
      simp [gameDue, hls, isInCriticalPeriod_fst, hc]
    · intro hc
      simp [gameDue, hls, isInCriticalPeriod_fst, hc]
  · intro games
    constructor
    · intro h
      rcases List.mem_filter.mp h with ⟨h1, h2⟩
      rcases List.mem_filter.mp h1 with ⟨h3, h4⟩
      exact ⟨h3, h4, h2⟩
    · rintro ⟨h1, h2, h3⟩
      exact List.mem_filter.mpr ⟨List.mem_filter.mpr ⟨h1, h2⟩, h3⟩

/-- Claim C4 witness: a game whose round starts in 90 minutes, last synced
40 minutes ago, is due under the 30-minute critical cadence. -/
theorem games_due_for_sync_c4_witness :
    gameDue (100 * msPerMinute)
      { baseGame with
          current_round_start := some (190 * msPerMinute),
          last_synced_at := some (60 * msPerMinute) } = true := by
  have h := (games_due_for_sync_c4_amended (100 * msPerMinute)
    { baseGame with
        current_round_start := some (190 * msPerMinute),
        last_synced_at := some (60 * msPerMinute) }).2.1 (60 * msPerMinute) rfl
  exact (h.1 (by decide)).mpr (by decide)

def uA : SwushUser := { swushId := 1, name := "A", externalId := some "e1" }

/-- An 11-page run in which only page 11 fails to fetch. -/
def envC2a : UsersPhaseEnv :=
  { firstFetch := .ok (11, [uA]),
    fetchPage := fun p => if p = 11 then .error "HTTP 503: Service Unavailable"
      else .ok [uA],
    persistOk := fun _ => true }

/-- An 11-page run in which pages 10 and 11 fail to fetch. -/
def envC2b : UsersPhaseEnv :=
  { firstFetch := .ok (11, [uA]),
    fetchPage := fun p => if p = 10 ∨ p = 11 then .error "HTTP 503: Service Unavailable"
      else .ok [uA],
    persistOk := fun _ => true }

/-- Characterization of the pages 2..N loop fold: the accumulated count is
the sum of the saved counts of the successful pages and the failed-page list
collects the failing pages in order. -/
theorem foldl_pageStep (fetchPage : Nat → Except String (List SwushUser))
    (persistOk : Nat → Bool) :
    ∀ (l : List Nat) (acc : Nat × List Nat),
      l.foldl (pageStep fetchPage persistOk) acc =
        (acc.1 + ((l.filter (fun p => (fetchAndSavePage fetchPage persistOk p).success)).map
            (fun p => (fetchAndSavePage fetchPage persistOk p).count)).sum,
         acc.2 ++ l.filter (fun p => !(fetchAndSavePage fetchPage persistOk p).success)) := by
  intro l
  induction l with
  | nil => intro acc; simp
  | cons p rest ih =>
    intro acc
    by_cases hp : (fetchAndSavePage fetchPage persistOk p).success = true
    · simp [List.foldl_cons, pageStep, hp, ih, List.filter_cons, Nat.add_assoc]
    · have hp2 : (fetchAndSavePage fetchPage persistOk p).success = false := by
        simpa using hp
      simp [List.foldl_cons, pageStep, hp2, ih, List.filter_cons]

/-- Claim C2: over a user-phase run whose page count was learned from page 1,
the phase is reported failed exactly when the failed pages exceed 10 percent
of the total (failed * 10 > total), and in both cases usersSynced is the sum
of the persisted user counts of the successful pages.  The instance parts
check the 1-of-11 (succeeds, 10 users) and 2-of-11 (fails, 9 users) runs. -/
theorem sync_users_threshold_c2 :
    (∀ (env : UsersPhaseEnv) (totalPages : Nat) (firstUsers : List SwushUser),
      env.firstFetch = .ok (totalPages, firstUsers) →
      (((syncUsers env).success = false ↔
          ((allPages totalPages).filter
            (fun p => !(runPageOutcome env firstUsers p).success)).length * 10 > totalPages) ∧
        (syncUsers env).usersSynced =
          some (((allPages totalPages).filter
              (fun p => (runPageOutcome env firstUsers p).success)).map
            (fun p => (runPageOutcome env firstUsers p).count)).sum)) ∧
    (syncUsers envC2a).success = true ∧
    (syncUsers envC2a).usersSynced = some 10 ∧
    (syncUsers envC2b).success = false ∧
    (syncUsers envC2b).usersSynced = some 9 := by
  refine ⟨?_, by decide, by decide, by decide, by decide⟩
  intro env tp fu hf
  have hro1 : runPageOutcome env fu 1 = saveUsersPage (env.persistOk 1) fu := by
    simp [runPageOutcome]
  have hlater1 : (laterPages tp).filter (fun p => !(runPageOutcome env fu p).success) =
      (laterPages tp).filter
        (fun p => !(fetchAndSavePage env.fetchPage env.persistOk p).success) := by
    apply List.filter_congr
    intro p hp
    have h2 := (List.mem_range'_1.mp hp).1
    have hne : p ≠ 1 := by omega
    simp [runPageOutcome, hne]
  have hlater2 : (laterPages tp).filter (fun p => (runPageOutcome env fu p).success) =
      (laterPages tp).filter
        (fun p => (fetchAndSavePage env.fetchPage env.persistOk p).success) := by
    apply List.filter_congr
    intro p hp
    have h2 := (List.mem_range'_1.mp hp).1
    have hne : p ≠ 1 := by omega
    simp [runPageOutcome, hne]
  have hmap : ((laterPages tp).filter
        (fun p => (fetchAndSavePage env.fetchPage env.persistOk p).success)).map
          (fun p => (runPageOutcome env fu p).count) =
      ((laterPages tp).filter
        (fun p => (fetchAndSavePage env.fetchPage env.persistOk p).success)).map
          (fun p => (fetchAndSavePage env.fetchPage env.persistOk p).count) := by
    apply List.map_congr_left
    intro p hp
    have h2 := (List.mem_range'_1.mp (List.mem_filter.mp hp).1).1
    have hne : p ≠ 1 := by omega
    simp [runPageOutcome, hne]
  have hfailAll : (allPages tp).filter (fun p => !(runPageOutcome env fu p).success) =
      (if (saveUsersPage (env.persistOk 1) fu).success = true then ([] : List Nat) else [1]) ++
        (laterPages tp).filter
          (fun p => !(fetchAndSavePage env.fetchPage env.persistOk p).success) := by
    simp only [allPages, List.filter_cons]
    rw [hlater1]
    cases hs : (saveUsersPage (env.persistOk 1) fu).success <;> simp [hro1, hs]
  have hsyncAll : ((allPages tp).filter (fun p => (runPageOutcome env fu p).success)).map
        (fun p => (runPageOutcome env fu p).count) =
      (if (saveUsersPage (env.persistOk 1) fu).success = true
        then [(saveUsersPage (env.persistOk 1) fu).count] else []) ++
        ((laterPages tp).filter
          (fun p => (fetchAndSavePage env.fetchPage env.persistOk p).success)).map
            (fun p => (fetchAndSavePage env.fetchPage env.persistOk p).count) := by
    simp only [allPages, List.filter_cons]
    rw [hlater2]
    cases hs : (saveUsersPage (env.persistOk 1) fu).success <;>
      simp [hro1, hs, hmap]
  rw [hfailAll, hsyncAll]
  simp only [syncUsers, hf]
  rw [foldl_pageStep]
  by_cases hs1 : (saveUsersPage (env.persistOk 1) fu).success = true
  · simp only [hs1, if_true]
    split_ifs with hcond <;>
      simp_all [List.sum_append, Nat.add_comm]
  · have hs1f : (saveUsersPage (env.persistOk 1) fu).success = false := by
      simpa using hs1
    simp only [hs1f, Bool.false_eq_true, if_false]
    split_ifs with hcond <;>
      simp_all [List.sum_append, Nat.add_comm]

/-- Claim C2 witness: the general part applied at the 1-of-11 run. -/
theorem sync_users_threshold_c2_witness :
    ((syncUsers envC2a).success = false ↔
      ((allPages 11).filter
        (fun p => !(runPageOutcome envC2a [uA] p).success)).length * 10 > 11) ∧
    (syncUsers envC2a).usersSynced =
      some (((allPages 11).filter
          (fun p => (runPageOutcome envC2a [uA] p).success)).map
        (fun p => (runPageOutcome envC2a [uA] p).count)).sum :=
  sync_users_threshold_c2.1 envC2a 11 [uA] rfl

theorem applyElementUpserts_append (store : ElementStore) (us1 us2 : List ElementUpsert) :
    applyElementUpserts store (us1 ++ us2) =
      applyElementUpserts (applyElementUpserts store us1) us2 :=
  List.foldl_append _ _ _ _

theorem applyElementUpserts_cons (store : ElementStore) (u : ElementUpsert)
    (us : List ElementUpsert) :
    applyElementUpserts store (u :: us) =
      applyElementUpserts (applyElementUpsert store u) us := rfl

/-- An upsert of a different key leaves a row unchanged. -/
theorem applyElementUpsert_other (store : ElementStore) (u : ElementUpsert)
    (k : String × Int) (h : k ≠ (u.game_id, u.element_id)) :
    applyElementUpsert store u k = store k := by
  simp [applyElementUpsert, h]

/-- A sequence of upserts none of which target k leaves the row at k
unchanged. -/
theorem applyElementUpserts_other (k : String × Int) :
    ∀ (us : List ElementUpsert) (store : ElementStore),
      (∀ u ∈ us, k ≠ (u.game_id, u.element_id)) →
      applyElementUpserts store us k = store k := by
  intro us
  induction us with
  | nil => intro store h; rfl
  | cons u rest ih =>
    intro store h
    calc applyElementUpserts store (u :: rest) k
        = applyElementUpserts (applyElementUpsert store u) rest k := rfl
      _ = applyElementUpsert store u k := ih _ (fun v hv => h v (by simp [hv]))
      _ = store k := applyElementUpsert_other store u k (h u (by simp))

/-- No sequence of catalog upserts ever changes the is_injured or
is_suspended column of an existing row: those columns are not written. -/
theorem applyElementUpserts_flags (k : String × Int) :
    ∀ (us : List ElementUpsert) (store : ElementStore) (r : ElementRow),
      store k = some r →
      ∃ r2, applyElementUpserts store us k = some r2 ∧
        r2.is_injured = r.is_injured ∧ r2.is_suspended = r.is_suspended := by
  intro us
  induction us with
  | nil => intro store r h; exact ⟨r, h, rfl, rfl⟩
  | cons u rest ih =>
    intro store r h
    by_cases hk : k = (u.game_id, u.element_id)
    · subst hk
      have hstep : applyElementUpsert store u (u.game_id, u.element_id) =
          some { game_id := u.game_id, element_id := u.element_id,
                 short_name := u.short_name, full_name := u.full_name,
                 team_name := u.team_name, image_url := u.image_url,
                 popularity := u.popularity, trend := u.trend, growth := u.growth,
                 total_growth := u.total_growth, value := u.value,
                 is_injured := r.is_injured, is_suspended := r.is_suspended,
                 updated_at := u.updated_at } := by
        simp [applyElementUpsert, h]
      rw [applyElementUpserts_cons]
      obtain ⟨r2, hr2, hi, hs⟩ := ih _ _ hstep
      exact ⟨r2, hr2, hi, hs⟩
    · rw [applyElementUpserts_cons]
      exact ih _ r (by rw [applyElementUpsert_other store u k hk]; exact h)

/-- With every batch upsert succeeding, the batched catalog sync applies
exactly the per-element upserts, in list order. -/
theorem syncElementsBatches_allOk (gameId : String) (now : Int)
    (batchOk : Nat → Bool) (hok : ∀ i, batchOk i = true) :
    ∀ (m : Nat) (l : List SwushElement), l.length ≤ m →
      ∀ (i : Nat) (store : ElementStore),
      (syncElementsBatches gameId now batchOk (chunksOf BATCH_SIZE l) i store).2 =
        applyElementUpserts store (l.map (elementUpsertOf gameId now)) := by
  intro m
  induction m with
  | zero =>
    intro l hl i store
    have : l = [] := List.eq_nil_of_length_eq_zero (Nat.le_zero.mp hl)
    subst this
    simp [chunksOf, syncElementsBatches, applyElementUpserts]
  | succ m ih =>
    intro l hl i store
    by_cases hnil : l = []
    · subst hnil
      simp [chunksOf, syncElementsBatches, applyElementUpserts]
    · rw [chunksOf, dif_neg (not_or.mpr ⟨hnil, by decide⟩)]
      simp only [syncElementsBatches, hok i, if_true]
      have hlen : (l.drop BATCH_SIZE).length ≤ m := by
        have hpos : 0 < l.length := List.length_pos.mpr hnil
        simp only [List.length_drop, BATCH_SIZE]
        omega
      rw [ih (l.drop BATCH_SIZE) hlen (i + 1)
        (applyElementUpserts store ((l.take BATCH_SIZE).map (elementUpsertOf gameId now)))]
      conv_rhs => rw [← List.take_append_drop BATCH_SIZE l]
      rw [List.map_append, applyElementUpserts_append]

/-- The element phase on a successful fetch, store view. -/
theorem syncElements_ok_store (game : Game) (now : Int)
    (elements : List SwushElement) (batchOk : Nat → Bool) (store : ElementStore) :
    (syncElements game now (.ok elements) batchOk store).2 =
      (syncElementsBatches game.id now batchOk
        (chunksOf BATCH_SIZE elements) 0 store).2 := rfl

def rowC8 : ElementRow :=
  ElementRow.mk "g1" 7 "OLD" "Old Name" "OldTeam" "old.png" 1 1 1 1 5 true true 0

def storeC8 : ElementStore := fun k => if k = ("g1", 7) then some rowC8 else none

def elC8 : SwushElement :=
  { elementId := 7, imageUrl := "new.png", shortName := "NEW",
    fullName := "New Name", teamName := "NewTeam", popularity := 9, trend := 3,
    growth := 4, totalGrowth := 20, value := 9 }

def elOther : SwushElement :=
  { elementId := 8, imageUrl := "o.png", shortName := "OTH",
    fullName := "Other Name", teamName := "OtherTeam", popularity := 2,
    trend := 2, growth := 2, totalGrowth := 2, value := 2 }

/-- Claim C8 counterexample: after a fully successful catalog sync of
element 7, the persisted row has every written metric replaced from
upstream but keeps is_injured = true and is_suspended = true left over from
the previous sync: the upstream record carries no such flags and the sync
writes neither column. -/
theorem element_flags_c8_counterexample :
    (syncElements baseGame 1000 (.ok [elC8]) (fun _ => true) storeC8).2 ("g1", 7) =
      some (ElementRow.mk "g1" 7 "NEW" "New Name" "NewTeam" "new.png"
        9 3 4 20 9 true true 1000) := by
  have h := syncElementsBatches_allOk "g1" 1000 (fun _ => true) (fun _ => rfl)
    1 [elC8] (by decide) 0 storeC8
  calc (syncElements baseGame 1000 (.ok [elC8]) (fun _ => true) storeC8).2 ("g1", 7)
      = (syncElementsBatches "g1" 1000 (fun _ => true)
          (chunksOf BATCH_SIZE [elC8]) 0 storeC8).2 ("g1", 7) := rfl
    _ = applyElementUpserts storeC8 ([elC8].map (elementUpsertOf "g1" 1000)) ("g1", 7) := by
        rw [h]
    _ = some (ElementRow.mk "g1" 7 "NEW" "New Name" "NewTeam" "new.png"
          9 3 4 20 9 true true 1000) := by decide

/-- Claim C8 as amended: the catalog sync upserts by the natural key
(game_id, element_id); after a successful sync the persisted row carries
the upstream identity fields and performance metrics (trend, growth,
total_growth, value, popularity) with none of the written fields left over
from a previous sync, while the status flags is_injured and is_suspended
are not written by the sync and retain their previously stored values
(upstream elements carry no such flags). -/
theorem sync_elements_replace_c8_amended :
    ∀ (game : Game) (now : Int) (batchOk : Nat → Bool) (store : ElementStore)
      (l1 l2 : List SwushElement) (el : SwushElement) (row : ElementRow),
      (∀ i, batchOk i = true) →
      (∀ e ∈ l2, e.elementId ≠ el.elementId) →
      store (game.id, el.elementId) = some row →
      (syncElements game now (.ok (l1 ++ el :: l2)) batchOk store).2
          (game.id, el.elementId) =
        some (ElementRow.mk game.id el.elementId el.shortName el.fullName
          (jsOrStr el.teamName "") el.imageUrl el.popularity el.trend el.growth
          el.totalGrowth el.value row.is_injured row.is_suspended now) := by
  intro game now batchOk store l1 l2 el row hok hl2 hrow
  rw [syncElements_ok_store,
    syncElementsBatches_allOk game.id now batchOk hok (l1 ++ el :: l2).length
      (l1 ++ el :: l2) le_rfl 0 store,
    List.map_append, applyElementUpserts_append, List.map_cons,
    applyElementUpserts_cons]
  obtain ⟨r2, hr2, hi, hs⟩ := applyElementUpserts_flags (game.id, el.elementId)
    (l1.map (elementUpsertOf game.id now)) store row hrow
  have hstep : applyElementUpsert
      (applyElementUpserts store (l1.map (elementUpsertOf game.id now)))
      (elementUpsertOf game.id now el) (game.id, el.elementId) =
      some (ElementRow.mk game.id el.elementId el.shortName el.fullName
        (jsOrStr el.teamName "") el.imageUrl el.popularity el.trend el.growth
        el.totalGrowth el.value row.is_injured row.is_suspended now) := by
    simp [applyElementUpsert, elementUpsertOf, hr2, hi, hs]
  rw [applyElementUpserts_other (game.id, el.elementId)
    (l2.map (elementUpsertOf game.id now)) _ ?hne, hstep]
  case hne =>
    intro u hu
    rcases List.mem_map.mp hu with ⟨e, he, rfl⟩
    intro hcontra
    have : el.elementId = e.elementId := (Prod.mk.injEq _ _ _ _).mp hcontra |>.2
    exact hl2 e he this.symm

/-- Claim C8 witness: the amended theorem applied at a two-element catalog
over a store holding a previously injured row for element 7. -/
theorem sync_elements_replace_c8_witness :
    (syncElements baseGame 1000 (.ok [elOther, elC8]) (fun _ => true) storeC8).2
        (baseGame.id, elC8.elementId) =
      some (ElementRow.mk baseGame.id elC8.elementId elC8.shortName elC8.fullName
        (jsOrStr elC8.teamName "") elC8.imageUrl elC8.popularity elC8.trend
        elC8.growth elC8.totalGrowth elC8.value rowC8.is_injured
        rowC8.is_suspended 1000) :=
  sync_elements_replace_c8_amended baseGame 1000 (fun _ => true) storeC8
    [elOther] [] elC8 rowC8 (fun _ => rfl) (by simp) (by decide)


